import Mathlib

/-
Verification of the kumo visual-regression pipeline
(`packages/kumo-figma/src/generators/select.ts`, appended pipeline script).

The script's pure logic is embedded shallowly: file system access
(`existsSync`/`readFileSync`), the PNG decoder (`PNG.sync.read`), the
perceptual pixel comparison of the external `pixelmatch` library, the Node
`URL` class, the worker HTTP call and the GitHub REST API are external
collaborators and appear as explicit parameters or small state records;
a `throw` is modelled as `Except.error` (or `none` for an uncaught
exception), JavaScript numbers as `Nat`/`Rat`.
-/

namespace VisualRegression

/-- One decoded PNG raster: width, height and RGBA byte data (4 bytes per
pixel), as produced by `PNG.sync.read` in `compareImages`. -/
structure Png where
  width : Nat
  height : Nat
  data : List Nat
deriving Repr, DecidableEq

/-- Result record of `compareImages` (the `DiffResult` interface of the
source). `diffPercent` is modelled as a rational number. -/
structure DiffResult where
  changed : Bool
  diffPixels : Nat
  diffPercent : Rat
  diffImage : Option Png
deriving Repr, DecidableEq

/-- Model of the JavaScript expression `Math.round(x * 100) / 100` used for
`diffPercent` (its argument is always non-negative there, where
`Math.round` is floor of the successor half). -/
def roundTo2 (q : Rat) : Rat := ((Int.floor (q * 100 + 1/2) : Int) : Rat) / 100

/-- One RGBA pixel. -/
structure Pixel where
  r : Nat
  g : Nat
  b : Nat
  a : Nat
deriving Repr, DecidableEq

/-- Reading pixel `(x, y)` from an RGBA byte buffer whose rows are `w`
pixels wide. -/
def pixelAt (data : List Nat) (w x y : Nat) : Pixel :=
  let o := (y * w + x) * 4
  ⟨data.getD o 0, data.getD (o + 1) 0, data.getD (o + 2) 0, data.getD (o + 3) 0⟩

/-- Modelled from the spec: the external `pixelmatch` library (an external
collaborator, its implementation is not part of this repository). Spec §4.4:
the buffers are compared pixel-by-pixel with a fixed perceptual threshold,
producing a changed-pixel count and a diff raster where changed pixels are
tinted with the fixed highlight colour over the candidate image. The
perceptual comparison itself is abstracted as the parameter `differs`;
`before` and `after` are RGBA buffers for a `w` by `h` raster. -/
def pixelmatch (differs : Pixel → Pixel → Bool) (before after : List Nat)
    (w h : Nat) : Nat × List Nat :=
  let changedCount :=
    ((List.range (w * h)).filter fun i =>
      differs (pixelAt before w (i % w) (i / w)) (pixelAt after w (i % w) (i / w))).length
  let diffData :=
    (List.range (w * h)).flatMap fun i =>
      let p := pixelAt after w (i % w) (i / w)
      if differs (pixelAt before w (i % w) (i / w)) p then [255, 0, 0, 255]
      else [p.r, p.g, p.b, p.a]
  (changedCount, diffData)

/-- The `padToSize` helper inside `compareImages`: when the raster already
has the target dimensions its byte data is used as is; otherwise a
zero-initialised buffer of `w * h * 4` bytes receives each source row at the
same row index, left aligned — top-left aligned zero padding. (In
`compareImages` it is only called with `png.width ≤ w` and `png.height ≤ h`,
the element-wise maxima.) -/
def padToSize (png : Png) (w h : Nat) : List Nat :=
  if png.width = w ∧ png.height = h then png.data
  else
    (List.range (w * h * 4)).map fun i =>
      let y := i / (w * 4)
      let x := i % (w * 4)
      if y < png.height ∧ x < png.width * 4 then
        png.data.getD (y * (png.width * 4) + x) 0
      else 0

/-- The part of `compareImages` that runs after both buffers decoded
(lines 1087-1140): pad both buffers to the element-wise maximum dimensions,
run `pixelmatch`, derive `diffPercent` from the count and the padded area,
and always report `changed: true` with a diff raster of the maximum
dimensions. -/
def comparePixels (differs : Pixel → Pixel → Bool) (beforePng afterPng : Png) :
    DiffResult :=
  let width := max beforePng.width afterPng.width
  let height := max beforePng.height afterPng.height
  let beforeData := padToSize beforePng width height
  let afterData := padToSize afterPng width height
  let pm := pixelmatch differs beforeData afterData width height
  let totalPixels := width * height
  let diffPercent : Rat :=
    if 0 < totalPixels then (pm.1 : Rat) / (totalPixels : Rat) * 100 else 0
  { changed := true
    diffPixels := pm.1
    diffPercent := roundTo2 diffPercent
    diffImage := some { width := width, height := height, data := pm.2 } }

/-- The diff engine `compareImages` (lines 1071-1141), parametrised over the
file system `fs` (modelling `existsSync`/`readFileSync`; `none` means the
file does not exist), the PNG decoder `decode` (modelling `PNG.sync.read`;
`none` models a decode exception) and the perceptual comparison `differs`
of the external `pixelmatch` library. An overall `none` models an uncaught
exception escaping the function. -/
def compareImages (differs : Pixel → Pixel → Bool)
    (fs : String → Option (List Nat)) (decode : List Nat → Option Png)
    (beforePath afterPath : String) : Option DiffResult :=
  match fs beforePath, fs afterPath with
  | none, _ =>
    some { changed := true, diffPixels := 0, diffPercent := 100, diffImage := none }
  | some _, none =>
    some { changed := true, diffPixels := 0, diffPercent := 100, diffImage := none }
  | some beforeBuf, some afterBuf =>
    if beforeBuf = afterBuf then
      some { changed := false, diffPixels := 0, diffPercent := 0, diffImage := none }
    else
      match decode beforeBuf, decode afterBuf with
      | some beforePng, some afterPng => some (comparePixels differs beforePng afterPng)
      | _, _ => none

/-- Model of JavaScript string truthiness for an optional string field:
`undefined` and the empty string are falsy. -/
def strTruthy : Option String → Bool
  | none => false
  | some s => s != ""

/-- Model of the JavaScript `urlPath.replace(/\/$/, "")`: drop one trailing
slash. -/
def dropTrailingSlash (s : String) : String :=
  if s.data.getLast? = some '/' then String.mk s.data.dropLast else s

/-- Model of JavaScript `String.prototype.split(sep)` for a one-character
separator, on the character list. -/
def splitOnChar (sep : Char) : List Char → List (List Char)
  | [] => [[]]
  | c :: rest =>
    let r := splitOnChar sep rest
    if c = sep then [] :: r
    else
      match r with
      | [] => [[c]]
      | s :: ss => (c :: s) :: ss

/-- Model of JavaScript `String.prototype.startsWith`. -/
def jsStartsWith (s pre : String) : Bool := pre.data.isPrefixOf s.data

/-- The expression `urlPath.split("/").pop() || "unknown"` computing
`componentSlug` in `captureScreenshots`: the last `/`-separated segment,
or `"unknown"` when that segment is empty (or absent). -/
def componentSlugOf (urlPath : String) : String :=
  match (splitOnChar '/' urlPath.data).getLast? with
  | some seg => if seg.isEmpty then "unknown" else String.mk seg
  | none => "unknown"

/-- The `formatName` helper (lines 1056-1061): split the slug on `-`,
capitalise the first character of each word, join with spaces. -/
def formatName (slug : String) : String :=
  String.intercalate " "
    ((splitOnChar '-' slug.data).map fun word =>
      match word with
      | [] => ""
      | c :: cs => String.mk (c.toUpper :: cs))

/-- An entry of the `COMPONENT_ACTIONS` table (page-config): a page
interaction run before the capture. -/
structure PageAction where
  type : String
  selector : String
  waitAfter : Option Nat
deriving Repr, DecidableEq

/-- The `PageRequest` interface: one rendering instruction of the batch
request. `actions = none` models an absent `actions` field. -/
structure PageRequest where
  url : String
  captureSections : Bool
  hideSidebar : Bool
  actions : Option (List PageAction)
deriving Repr, DecidableEq

/-- The `ScreenshotResult` interface: one entry of the worker's batch
response. Optional fields are `none` when absent; `image` is the base64
payload, `""` when empty. -/
structure ScreenshotResult where
  url : String
  image : String
  error : Option String
  sectionId : Option String
  sectionTitle : Option String
deriving Repr, DecidableEq

/-- The `CapturedScreenshot` interface: what `captureScreenshots` pushes per
kept result. -/
structure CapturedScreenshot where
  id : String
  name : String
  path : String
  url : Option String
deriving Repr, DecidableEq

/-- A `DiscoveredComponent` from page-config (spec §3: id, name, url,
category). -/
structure DiscoveredComponent where
  id : String
  name : String
  url : String
  category : String
deriving Repr, DecidableEq

/-- The request list built at the top of `captureScreenshots`
(lines 943-961): one main request per component (`captureSections: true`)
and, when the `COMPONENT_ACTIONS` table has an entry for the component id, a
second request carrying that action. `componentActions` stands for the
`COMPONENT_ACTIONS` table of page-config. -/
def buildRequests (componentActions : String → Option PageAction)
    (components : List DiscoveredComponent) : List PageRequest :=
  components.flatMap fun component =>
    { url := component.url, captureSections := true, hideSidebar := true,
      actions := none } ::
      (match componentActions component.id with
       | some action =>
         [{ url := component.url, captureSections := false, hideSidebar := true,
            actions := some [action] }]
       | none => [])

/-- The id and display-name derivation for one worker result inside
`captureScreenshots` (lines 1002-1024), parametrised by `pathname` modelling
`new URL(u).pathname` of the Node `URL` class (an external collaborator).
`isOpenState` re-derives "is this the action variant" by matching the
result's path against the request list. -/
def screenshotIdName (pathname : String → String) (requests : List PageRequest)
    (result : ScreenshotResult) : String × String :=
  let urlPath := dropTrailingSlash (pathname result.url)
  let componentSlug := componentSlugOf urlPath
  let isOpenState := requests.any fun r =>
    r.url == dropTrailingSlash urlPath &&
      (match r.actions with
       | some acts => decide (0 < acts.length)
       | none => false)
  if strTruthy result.sectionId then
    (componentSlug ++ "-" ++ result.sectionId.getD "",
      formatName componentSlug ++ " / " ++
        (if strTruthy result.sectionTitle then result.sectionTitle.getD ""
         else result.sectionId.getD ""))
  else if isOpenState then
    (componentSlug ++ "-open", formatName componentSlug ++ " (Open)")
  else
    (componentSlug, formatName componentSlug)

/-- Outcome of the GitHub HTTP calls made inside `uploadImageToGitHub`,
modelling the external GitHub REST service: whether the main-ref lookup
succeeds (and its sha), whether the per-run branch already exists, whether
creating it succeeds, and whether the content PUT succeeds. The
existing-file probe only selects the update precondition of the PUT body and
does not change the outcome shape, so it is not tracked. -/
structure GitHubEnv where
  mainRefSha : Option String
  branchExists : Bool
  createRefOk : Bool
  uploadOk : Bool
deriving Repr, DecidableEq

/-- The `uploadImageToGitHub` function (lines 818-925): throws — modelled as
`Except.error` with the fixed part of the thrown message — when the
`GITHUB_TOKEN` is absent, when the main-ref lookup fails, when branch
creation fails, or when the content PUT fails; otherwise returns the stable
raw URL. -/
def uploadImageToGitHub (token : Option String) (env : GitHubEnv)
    (owner repoName branch filename : String) : Except String String :=
  match token with
  | none => Except.error "GITHUB_TOKEN required for image upload"
  | some _ =>
    match env.mainRefSha with
    | none => Except.error "Failed to get main ref"
    | some _ =>
      if !env.branchExists && !env.createRefOk then
        Except.error ("Failed to create branch " ++ branch)
      else if !env.uploadOk then
        Except.error ("Failed to upload " ++ filename)
      else
        Except.ok ("https://raw.githubusercontent.com/" ++ owner ++ "/" ++
          repoName ++ "/" ++ branch ++ "/screenshots/" ++ filename)

/-- The `try/catch` around `uploadImageToGitHub` in `captureScreenshots`
(lines 1032-1043): every upload error is caught — a missing `GITHUB_TOKEN`
is logged as "local only", any other message as "Upload failed" — and in
either case the screenshot keeps `url = null`; nothing is rethrown. -/
def caughtUploadUrl (uploadResult : Except String String) : Option String :=
  match uploadResult with
  | Except.ok u => some u
  | Except.error _ => none

/-- The `captureScreenshots` function (lines 934-1054) from the worker call
on: `workerOk` is the `response.ok` of the batch POST (`false` models the
thrown `Worker request failed` error), `results` the decoded response
entries. Results with a truthy `error` or an empty `image` are skipped;
every other result is written locally and pushed with the id and name of
`screenshotIdName` and the url produced by the caught upload attempt. -/
def captureScreenshotsRun (token : Option String) (env : GitHubEnv)
    (workerOk : Bool) (pathname : String → String)
    (componentActions : String → Option PageAction)
    (components : List DiscoveredComponent) (outputDir prefixStr : String)
    (owner repoName branch : String) (results : List ScreenshotResult) :
    Except String (List CapturedScreenshot) :=
  let requests := buildRequests componentActions components
  if !workerOk then Except.error "Worker request failed"
  else
    Except.ok <|
      (results.filter fun r => !(strTruthy r.error) && r.image != "").map fun r =>
        let idName := screenshotIdName pathname requests r
        let filename := prefixStr ++ "-" ++ idName.1 ++ ".png"
        { id := idName.1
          name := idName.2
          path := outputDir ++ "/" ++ filename
          url := caughtUploadUrl
            (uploadImageToGitHub token env owner repoName branch filename) }

/-- One issue comment as listed by the GitHub comments API in
`postPRComment` (only `id` and the optional `body` are read). -/
structure IssueComment where
  id : Nat
  body : Option String
deriving Repr, DecidableEq

/-- The hidden marker: first line of every generated report and the needle of
the idempotent comment scan. -/
def reportMarker : String := "<!-- kumo-visual-regression -->"

/-- The scan predicate of `postPRComment` (line 1221):
`(c) => c.body?.startsWith(marker)` — an absent body is falsy. -/
def bodyHasMarker (c : IssueComment) : Bool :=
  match c.body with
  | some b => jsStartsWith b reportMarker
  | none => false

/-- The scan in `postPRComment` (line 1221): the first listed comment whose
body starts with the hidden marker. -/
def findExistingComment (comments : List IssueComment) : Option IssueComment :=
  comments.find? bodyHasMarker

/-- What `postPRComment` does after its guard: `skipped` models the early
return that logs the report to the console, `patched` the PATCH of the found
comment, `posted` the POST of a new comment. -/
inductive CommentOutcome where
  | skipped
  | patched (commentId : Nat)
  | posted
deriving Repr, DecidableEq

/-- The `postPRComment` function (lines 1192-1240): with the token or the PR
number missing it logs the report and returns; otherwise it PATCHes the
marker comment found by the scan over the listed comments, or POSTs a new
comment when the scan finds none. -/
def postPRComment (token : Option String) (prNumber : Option String)
    (comments : List IssueComment) : CommentOutcome :=
  if token.isNone || prNumber.isNone then CommentOutcome.skipped
  else
    match findExistingComment comments with
    | some c => CommentOutcome.patched c.id
    | none => CommentOutcome.posted

/-- Modelled from the spec: the comment store of the source-hosting service
(an external collaborator, §6): PATCH replaces the body of the addressed
comment, POST appends a new comment under a fresh id, a skipped upsert
leaves the thread unchanged. -/
def applyCommentAction (comments : List IssueComment) (action : CommentOutcome)
    (newId : Nat) (body : String) : List IssueComment :=
  match action with
  | CommentOutcome.skipped => comments
  | CommentOutcome.patched i =>
    comments.map fun c => if c.id = i then { c with body := some body } else c
  | CommentOutcome.posted => comments ++ [{ id := newId, body := some body }]

/-- Scope vocabulary of the classification (spec §3). -/
inductive Scope where
  | SKIP
  | TARGETED
  | CANARY
  | FULL
deriving Repr, DecidableEq

/-- The classification record consumed by `main`
(`classification.allSkippable` / `classification.requiresFullRegression`). -/
structure Classification where
  allSkippable : Bool
  requiresFullRegression : Bool
deriving Repr, DecidableEq

/-- Modelled from the spec: `classifyChangedFiles` lives in page-config,
which is not among the repository sources — only its caller `main` is.
Spec §4.1: `allSkippable` holds when every changed file matches a skippable
pattern; `requiresFullRegression` (broad impact) when any changed file
matches a broad-impact pattern. The static pattern rules are the parameters
`isSkippable` and `isBroadImpact`. -/
def classifyChangedFiles (isSkippable isBroadImpact : String → Bool)
    (changedFiles : List String) : Classification :=
  { allSkippable := changedFiles.all isSkippable
    requiresFullRegression := changedFiles.any isBroadImpact }

/-- The scope and component selection of `main` (lines 1242-1309):
a forced `--full` flag or a failed `git diff` (`changedFiles = none`) selects
the full catalog; an all-skippable change set returns early (SKIP); any
broad-impact change runs the canary subset — the discovered components whose
ids are listed in `CANARY_COMPONENTS` (`canaryComponents`, page-config);
otherwise the affected components (`getAffectedComponents`, page-config,
abstracted as `getAffected`) are targeted, degrading to SKIP when none
remain. -/
def selectRunComponents (fullRegression : Bool)
    (changedFiles : Option (List String))
    (isSkippable isBroadImpact : String → Bool) (canaryComponents : List String)
    (getAffected : List String → List DiscoveredComponent → List DiscoveredComponent)
    (allComponents : List DiscoveredComponent) :
    Scope × List DiscoveredComponent :=
  if fullRegression then (Scope.FULL, allComponents)
  else
    match changedFiles with
    | none => (Scope.FULL, allComponents)
    | some files =>
      let classification := classifyChangedFiles isSkippable isBroadImpact files
      if classification.allSkippable then (Scope.SKIP, [])
      else if classification.requiresFullRegression then
        (Scope.CANARY, allComponents.filter fun c => canaryComponents.contains c.id)
      else
        let comps := getAffected files allComponents
        if comps.isEmpty then (Scope.SKIP, []) else (Scope.TARGETED, comps)

/-- Observable side effects of the script, for the module-load and main-flow
trace: spawned shell subprocesses (`execSync`), the component discovery call,
and the batched worker captures. -/
inductive Effect where
  | execShell (cmd : String)
  | discoverCall (baseUrl : String)
  | workerBatch (baseUrl : String)
deriving Repr, DecidableEq

/-- One run's configuration: CLI flag, environment URLs and git base ref,
the outcome of the `git diff` subprocess (`none` models a failure), and the
page-config collaborators. -/
structure RunConfig where
  fullRegression : Bool
  baseRef : String
  beforeUrl : String
  afterUrl : String
  gitDiffFiles : Option (List String)
  isSkippable : String → Bool
  isBroadImpact : String → Bool
  canaryComponents : List String
  getAffected : List String → List DiscoveredComponent → List DiscoveredComponent
  allComponents : List DiscoveredComponent

/-- The effect trace of `main` (lines 1242-1392) to the level the claims
need: discovery first; without the `--full` flag the `git diff` subprocess
of `getChangedFiles` runs; a SKIP classification (all skippable, or no
affected components) returns before any capture; every other path issues the
before and after batched worker calls. -/
def mainTrace (cfg : RunConfig) : List Effect :=
  Effect.discoverCall cfg.beforeUrl ::
    (if cfg.fullRegression then
      [Effect.workerBatch cfg.beforeUrl, Effect.workerBatch cfg.afterUrl]
    else
      Effect.execShell ("git diff --name-only origin/" ++ cfg.baseRef ++ "...HEAD") ::
        (match cfg.gitDiffFiles with
         | none => [Effect.workerBatch cfg.beforeUrl, Effect.workerBatch cfg.afterUrl]
         | some files =>
           let classification :=
             classifyChangedFiles cfg.isSkippable cfg.isBroadImpact files
           if classification.allSkippable then []
           else if classification.requiresFullRegression then
             [Effect.workerBatch cfg.beforeUrl, Effect.workerBatch cfg.afterUrl]
           else if (cfg.getAffected files cfg.allComponents).isEmpty then []
           else
             [Effect.workerBatch cfg.beforeUrl, Effect.workerBatch cfg.afterUrl]))

/-- The effect trace of loading and running the script: the module top level
executes its statements in order, and line 797 is an unconditional
`execSync('echo hola')` sitting before the function declarations and before
the closing `main()` call — so it runs at module load, ahead of everything
`main` does. -/
def scriptTrace (cfg : RunConfig) : List Effect :=
  Effect.execShell "echo hola" :: mainTrace cfg

/-- The `main().catch(err => ... process.exit(1))` wrapper (lines 1394-1397):
exit code 1 exactly when `main` rejects, 0 otherwise. -/
def runExitCode (run : Except String Unit) : Nat :=
  match run with
  | Except.ok _ => 0
  | Except.error _ => 1

/-- Concrete pixel predicate: no pixel pair counts as perceptually
different (a re-encoded but pixel-identical raster). -/
def noPixelDiffers : Pixel → Pixel → Bool := fun _ _ => false

/-- Concrete pixel predicate: every pixel pair counts as different. -/
def allPixelsDiffer : Pixel → Pixel → Bool := fun _ _ => true

/-- Concrete file system with no files at all. -/
def fsNoFiles : String → Option (List Nat) := fun _ => none

/-- Concrete decoder that fails on everything (never consulted on the
fast paths). -/
def decodeNothing : List Nat → Option Png := fun _ => none

/-- Concrete 1 by 1 raster. -/
def pngOneByOne : Png := { width := 1, height := 1, data := [255, 0, 0, 255] }

/-- Concrete 2 by 1 raster. -/
def pngTwoByOne : Png :=
  { width := 2, height := 1, data := [255, 0, 0, 255, 0, 0, 0, 255] }

/-- Concrete decoder: byte sequence `[1]` decodes to the 1 by 1 raster,
`[2]` to the 2 by 1 raster. -/
def decodeTwoPngs : List Nat → Option Png := fun b =>
  if b = [1] then some pngOneByOne else if b = [2] then some pngTwoByOne else none

/-- Concrete file system holding two files with different byte contents. -/
def fsTwoFiles : String → Option (List Nat) := fun p =>
  if p = "before/before-select.png" then some [1]
  else if p = "after/after-select.png" then some [2]
  else none

/-- Concrete file system holding two byte-identical files. -/
def fsSameBytes : String → Option (List Nat) := fun p =>
  if p = "before/before-button.png" then some [137, 80, 78, 71]
  else if p = "after/after-button.png" then some [137, 80, 78, 71]
  else none

/-- Concrete discovered component for the documented select surface. -/
def selectComponent : DiscoveredComponent :=
  { id := "select", name := "Select", url := "/components/select",
    category := "form" }

/-- Concrete discovered component for the documented button surface. -/
def buttonComponent : DiscoveredComponent :=
  { id := "button", name := "Button", url := "/components/button",
    category := "form" }

/-- Concrete discovered component for the documented card surface. -/
def cardComponent : DiscoveredComponent :=
  { id := "card", name := "Card", url := "/components/card",
    category := "layout" }

/-- Concrete `COMPONENT_ACTIONS` table registering an open-dropdown click for
the select component. -/
def selectActionTable : String → Option PageAction := fun i =>
  if i = "select" then
    some { type := "click", selector := "[data-select-trigger]",
           waitAfter := some 500 }
  else none

/-- Concrete behaviour of `new URL(u).pathname` on the worker result urls of
the select page. -/
def pathnameSelect : String → String := fun _ => "/components/select"

/-- Concrete worker result for the select page's main view (no section id,
no error, non-empty image). -/
def selectMainResult : ScreenshotResult :=
  { url := "https://kumo-ui.com/components/select", image := "iVBORmain",
    error := none, sectionId := none, sectionTitle := none }

/-- Concrete worker result for the select page's open (action) variant. -/
def selectOpenResult : ScreenshotResult :=
  { url := "https://kumo-ui.com/components/select", image := "iVBORopen",
    error := none, sectionId := none, sectionTitle := none }

/-- Concrete GitHub API state in which every HTTP step succeeds. -/
def ghEnvOk : GitHubEnv :=
  { mainRefSha := some "0a1b2c", branchExists := true, createRefOk := true,
    uploadOk := true }

/-- Concrete skippable-pattern rule: only the docs readme is skippable. -/
def skippableDocsOnly : String → Bool := fun f => f == "docs/readme.md"

/-- Concrete broad-impact rule: the shared tokens stylesheet. -/
def broadTokensFile : String → Bool := fun f => f == "shared/tokens.css"

/-- Concrete run configuration whose classification is SKIP: no full flag,
git diff returns one skippable file. -/
def skipRunConfig : RunConfig :=
  { fullRegression := false
    baseRef := "main"
    beforeUrl := "https://kumo-ui.com"
    afterUrl := "https://preview.kumo-ui.com"
    gitDiffFiles := some ["docs/readme.md"]
    isSkippable := fun f => f == "docs/readme.md"
    isBroadImpact := fun _ => false
    canaryComponents := ["button", "select"]
    getAffected := fun _ _ => []
    allComponents := [selectComponent] }

lemma roundTo2_nonneg {q : Rat} (hq : 0 ≤ q) : 0 ≤ roundTo2 q := by
  unfold roundTo2
  have h1 : (0 : Rat) ≤ q * 100 + 1 / 2 := by positivity
  have h2 : (0 : Int) ≤ Int.floor (q * 100 + 1 / 2) := Int.floor_nonneg.mpr h1
  positivity

lemma roundTo2_le_100 {q : Rat} (hq : q ≤ 100) : roundTo2 q ≤ 100 := by
  unfold roundTo2
  have h1 : (q * 100 + 1 / 2 : Rat) < 10001 := by linarith
  have h2 : Int.floor (q * 100 + 1 / 2) < 10001 := by
    by_contra hc
    push_neg at hc
    have hle := Int.le_floor.mp hc
    push_cast at hle
    linarith
  have h3 : Int.floor (q * 100 + 1 / 2) ≤ 10000 := by omega
  have h4 : ((Int.floor (q * 100 + 1 / 2) : Int) : Rat) ≤ 10000 := by exact_mod_cast h3
  linarith

lemma pixelmatch_count_le (differs : Pixel → Pixel → Bool) (before after : List Nat)
    (w h : Nat) : (pixelmatch differs before after w h).1 ≤ w * h := by
  unfold pixelmatch
  simpa using
    le_trans (List.length_filter_le _ (List.range (w * h))) (by simp)

lemma comparePixels_diffPixels_le (differs : Pixel → Pixel → Bool)
    (beforePng afterPng : Png) :
    (comparePixels differs beforePng afterPng).diffPixels ≤
      max beforePng.width afterPng.width * max beforePng.height afterPng.height := by
  unfold comparePixels
  exact pixelmatch_count_le _ _ _ _ _

lemma comparePixels_diffPercent_eq (differs : Pixel → Pixel → Bool)
    (beforePng afterPng : Png) :
    (comparePixels differs beforePng afterPng).diffPercent =
      roundTo2 (((comparePixels differs beforePng afterPng).diffPixels : Rat) /
        ((max beforePng.width afterPng.width * max beforePng.height afterPng.height : Nat) : Rat) * 100) := by
  unfold comparePixels
  simp only
  by_cases h : 0 < max beforePng.width afterPng.width * max beforePng.height afterPng.height
  · simp [h]
  · have h0 : max beforePng.width afterPng.width * max beforePng.height afterPng.height = 0 := by
      omega
    simp [h0]

lemma diffPercentRaw_bounds (dp total : Nat) (hle : dp ≤ total) :
    0 ≤ (if 0 < total then (dp : Rat) / (total : Rat) * 100 else 0) ∧
      (if 0 < total then (dp : Rat) / (total : Rat) * 100 else 0) ≤ 100 := by
  by_cases h : 0 < total
  · simp only [if_pos h]
    constructor
    · positivity
    · have hone : (dp : Rat) / (total : Rat) ≤ 1 := by
        rw [div_le_one (by exact_mod_cast h)]
        exact_mod_cast hle
      linarith
  · simp [h]

lemma comparePixels_diffPercent_def (differs : Pixel → Pixel → Bool)
    (beforePng afterPng : Png) :
    (comparePixels differs beforePng afterPng).diffPercent =
      roundTo2 (if 0 < max beforePng.width afterPng.width * max beforePng.height afterPng.height then
        ((comparePixels differs beforePng afterPng).diffPixels : Rat) /
          ((max beforePng.width afterPng.width * max beforePng.height afterPng.height : Nat) : Rat) * 100
      else 0) := rfl

lemma comparePixels_diffPercent_bounds (differs : Pixel → Pixel → Bool)
    (beforePng afterPng : Png) :
    0 ≤ (comparePixels differs beforePng afterPng).diffPercent ∧
      (comparePixels differs beforePng afterPng).diffPercent ≤ 100 := by
  rw [comparePixels_diffPercent_def]
  obtain ⟨hb0, hb1⟩ := diffPercentRaw_bounds
    ((comparePixels differs beforePng afterPng).diffPixels) _
    (comparePixels_diffPixels_le differs beforePng afterPng)
  exact ⟨roundTo2_nonneg hb0, roundTo2_le_100 hb1⟩

lemma getD_range_map (f : Nat → Nat) (n i : Nat) :
    ((List.range n).map f).getD i 0 = if i < n then f i else 0 := by
  by_cases h : i < n
  · simp [List.getD_eq_getElem?_getD, List.getElem?_map, List.getElem?_range h, h]
  · have hn : (List.range n).length ≤ i := by simpa using Nat.le_of_not_lt h
    simp [List.getD_eq_getElem?_getD, List.getElem?_map, List.getElem?_eq_none hn, h]

/-- Pointwise characterisation of `padToSize`: within the target raster the
padded buffer holds the source byte at the same row and same in-row offset
when that position lies inside the source raster, and `0` otherwise —
top-left aligned zero padding. -/
lemma padToSize_getD (png : Png) (w h x y : Nat)
    (hw : png.width ≤ w) (hh : png.height ≤ h) (hx : x < w * 4) (hy : y < h) :
    (padToSize png w h).getD (y * (w * 4) + x) 0 =
      if y < png.height ∧ x < png.width * 4 then
        png.data.getD (y * (png.width * 4) + x) 0
      else 0 := by
  have hw4 : 0 < w * 4 := by omega
  unfold padToSize
  by_cases hdim : png.width = w ∧ png.height = h
  · obtain ⟨hww, hhh⟩ := hdim
    subst hww hhh
    simp [hy, hx]
  · rw [if_neg hdim]
    have hidx : y * (w * 4) + x < w * h * 4 := by
      calc y * (w * 4) + x < y * (w * 4) + w * 4 := by omega
        _ = (y + 1) * (w * 4) := by ring
        _ ≤ h * (w * 4) := Nat.mul_le_mul_right _ (by omega)
        _ = w * h * 4 := by ring
    rw [getD_range_map _ _ _, if_pos hidx]
    have hdiv : (y * (w * 4) + x) / (w * 4) = y := by
      rw [Nat.mul_comm y (w * 4), Nat.mul_add_div hw4, Nat.div_eq_of_lt hx]
      omega
    have hmod : (y * (w * 4) + x) % (w * 4) = x := by
      rw [Nat.mul_comm y (w * 4), Nat.mul_add_mod, Nat.mod_eq_of_lt hx]
    simp only [hdiv, hmod]

/-- C1 (counterexample): with neither input file present, `compareImages`
returns `diffPercent = 100`, not the zero metric value the claim states. -/
theorem compareImages_missing_input_counterexample :
    compareImages allPixelsDiffer fsNoFiles decodeNothing
        "before/before-select.png" "after/after-select.png" =
      some { changed := true, diffPixels := 0, diffPercent := 100, diffImage := none } ∧
    (100 : Rat) ≠ 0 := by
  constructor
  · rfl
  · norm_num

/-- C1 (amended): whenever the before file or the after file does not exist,
`compareImages` returns `changed = true` with `diffPixels = 0`,
`diffPercent = 100` and no diff raster, and raises no error. -/
theorem compareImages_missing_input (differs : Pixel → Pixel → Bool)
    (fs : String → Option (List Nat)) (decode : List Nat → Option Png)
    (beforePath afterPath : String)
    (h : fs beforePath = none ∨ fs afterPath = none) :
    compareImages differs fs decode beforePath afterPath =
      some { changed := true, diffPixels := 0, diffPercent := 100, diffImage := none } := by
  rcases h with h | h
  · simp [compareImages, h]
  · cases hb : fs beforePath <;> simp [compareImages, h, hb]

/-- C1 (witness): the amended statement at a concrete missing-file input. -/
theorem compareImages_missing_input_witness :
    compareImages allPixelsDiffer fsNoFiles decodeNothing
        "before/before-card.png" "after/after-card.png" =
      some { changed := true, diffPixels := 0, diffPercent := 100, diffImage := none } :=
  compareImages_missing_input allPixelsDiffer fsNoFiles decodeNothing
    "before/before-card.png" "after/after-card.png" (Or.inl rfl)

/-- C6: when both input files exist with identical byte contents,
`compareImages` returns `changed = false`, zero metrics and no diff raster,
and the result does not depend on the decoder — decoding is skipped. -/
theorem compareImages_identical_bytes (differs : Pixel → Pixel → Bool)
    (fs : String → Option (List Nat)) (decode decode2 : List Nat → Option Png)
    (beforePath afterPath : String) (b : List Nat)
    (h1 : fs beforePath = some b) (h2 : fs afterPath = some b) :
    compareImages differs fs decode beforePath afterPath =
      some { changed := false, diffPixels := 0, diffPercent := 0, diffImage := none } ∧
    compareImages differs fs decode beforePath afterPath =
      compareImages differs fs decode2 beforePath afterPath := by
  constructor <;> simp [compareImages, h1, h2]

/-- C6 (witness): the statement at a concrete byte-identical pair. -/
theorem compareImages_identical_bytes_witness :
    compareImages allPixelsDiffer fsSameBytes decodeNothing
        "before/before-button.png" "after/after-button.png" =
      some { changed := false, diffPixels := 0, diffPercent := 0, diffImage := none } :=
  (compareImages_identical_bytes allPixelsDiffer fsSameBytes decodeNothing
    decodeNothing "before/before-button.png" "after/after-button.png"
    [137, 80, 78, 71] rfl rfl).1

/-- C9: when both input files exist with different byte contents and both
decode, `compareImages` reports `changed = true` for every perceptual pixel
comparison — even one under which no pixel differs — and conversely a
`changed = false` result only ever arises from exact byte equality. -/
theorem compareImages_changed_iff_bytes_differ :
    (∀ (differs : Pixel → Pixel → Bool) (fs : String → Option (List Nat))
       (decode : List Nat → Option Png) (p1 p2 : String) (b1 b2 : List Nat)
       (g1 g2 : Png), fs p1 = some b1 → fs p2 = some b2 → b1 ≠ b2 →
       decode b1 = some g1 → decode b2 = some g2 →
       ∃ r, compareImages differs fs decode p1 p2 = some r ∧ r.changed = true) ∧
    (∀ (differs : Pixel → Pixel → Bool) (fs : String → Option (List Nat))
       (decode : List Nat → Option Png) (p1 p2 : String) (r : DiffResult),
       compareImages differs fs decode p1 p2 = some r → r.changed = false →
       ∃ b, fs p1 = some b ∧ fs p2 = some b) := by
  constructor
  · intro differs fs decode p1 p2 b1 b2 g1 g2 h1 h2 hne hd1 hd2
    refine ⟨comparePixels differs g1 g2, ?_, rfl⟩
    simp [compareImages, h1, h2, hne, hd1, hd2]
  · intro differs fs decode p1 p2 r hr hch
    cases hb1 : fs p1 with
    | none =>
      rw [compareImages, hb1] at hr
      simp at hr
      rw [← hr] at hch
      simp at hch
    | some b1 =>
      cases hb2 : fs p2 with
      | none =>
        rw [compareImages, hb1, hb2] at hr
        simp at hr
        rw [← hr] at hch
        simp at hch
      | some b2 =>
        rw [compareImages, hb1, hb2] at hr
        by_cases heq : b1 = b2
        · exact ⟨b1, rfl, by rw [heq]⟩
        · simp only [heq, if_false] at hr
          cases hd1 : decode b1 with
          | none => rw [hd1] at hr; exact absurd hr (by simp)
          | some g1 =>
            cases hd2 : decode b2 with
            | none => rw [hd1, hd2] at hr; exact absurd hr (by simp)
            | some g2 =>
              rw [hd1, hd2] at hr
              simp only [Option.some.injEq] at hr
              rw [← hr] at hch
              simp [comparePixels] at hch

/-- C9 (witness): a concrete pair of distinct byte sequences decoding to
rasters, compared under the predicate that flags no pixel, still comes back
`changed = true`. -/
theorem compareImages_changed_iff_bytes_differ_witness :
    ∃ r, compareImages noPixelDiffers fsTwoFiles decodeTwoPngs
        "before/before-select.png" "after/after-select.png" = some r ∧
      r.changed = true :=
  compareImages_changed_iff_bytes_differ.1 noPixelDiffers fsTwoFiles decodeTwoPngs
    "before/before-select.png" "after/after-select.png" [1] [2]
    pngOneByOne pngTwoByOne rfl rfl (by decide) rfl rfl

/-- C2 (counterexample): the missing-file result has `diffPixels = 0` but
`diffPercent = 100`, while the claimed formula forces
`round(0 / area * 100, 2) = 0` for every raster area — so `diffPercent` is
not always derived from `diffPixels` and the raster area. -/
theorem compareImages_diffPercent_counterexample :
    compareImages allPixelsDiffer fsNoFiles decodeNothing
        "before/before-badge.png" "after/after-badge.png" =
      some { changed := true, diffPixels := 0, diffPercent := 100, diffImage := none } ∧
    roundTo2 0 = 0 ∧ (100 : Rat) ≠ 0 := by
  refine ⟨rfl, ?_, by norm_num⟩
  norm_num [roundTo2]

/-- C2 (amended): for every result produced with both input files present,
`diffPercent` lies in `[0, 100]` and is derived, never stored: on the
byte-identical fast path it is `0` together with `diffPixels = 0`, and on
the decode path it equals `round(diffPixels / (width * height) * 100, 2)`
where `width` and `height` are the element-wise maxima of the two decoded
rasters' dimensions (the diff raster's dimensions). Only the missing-input
result stores `diffPercent = 100` independently. -/
theorem compareImages_diffPercent_derived (differs : Pixel → Pixel → Bool)
    (fs : String → Option (List Nat)) (decode : List Nat → Option Png)
    (p1 p2 : String) (b1 b2 : List Nat) (r : DiffResult)
    (h1 : fs p1 = some b1) (h2 : fs p2 = some b2)
    (hr : compareImages differs fs decode p1 p2 = some r) :
    0 ≤ r.diffPercent ∧ r.diffPercent ≤ 100 ∧
    ((r.diffImage = none ∧ r.changed = false ∧ r.diffPixels = 0 ∧ r.diffPercent = 0) ∨
     (∃ g1 g2 d, decode b1 = some g1 ∧ decode b2 = some g2 ∧
        r.diffImage = some d ∧ d.width = max g1.width g2.width ∧
        d.height = max g1.height g2.height ∧
        r.diffPercent = roundTo2 ((r.diffPixels : Rat) /
          ((d.width * d.height : Nat) : Rat) * 100))) := by
  rw [compareImages, h1, h2] at hr
  by_cases heq : b1 = b2
  · subst heq
    simp only [if_pos rfl, if_true, Option.some.injEq] at hr
    rw [← hr]
    exact ⟨by norm_num, by norm_num, Or.inl ⟨rfl, rfl, rfl, rfl⟩⟩
  · simp only [heq, if_false] at hr
    cases hd1 : decode b1 with
    | none => rw [hd1] at hr; exact absurd hr (by simp)
    | some g1 =>
      cases hd2 : decode b2 with
      | none => rw [hd1, hd2] at hr; exact absurd hr (by simp)
      | some g2 =>
        rw [hd1, hd2] at hr
        simp only [Option.some.injEq] at hr
        rw [← hr]
        refine ⟨(comparePixels_diffPercent_bounds differs g1 g2).1,
          (comparePixels_diffPercent_bounds differs g1 g2).2, Or.inr ?_⟩
        exact ⟨g1, g2, _, rfl, rfl, rfl, rfl, rfl,
          comparePixels_diffPercent_eq differs g1 g2⟩

/-- C2 (witness): the amended statement at a concrete pair of distinct files
decoding to a 1 by 1 and a 2 by 1 raster. -/
theorem compareImages_diffPercent_derived_witness :
    0 ≤ (comparePixels noPixelDiffers pngOneByOne pngTwoByOne).diffPercent ∧
    (comparePixels noPixelDiffers pngOneByOne pngTwoByOne).diffPercent ≤ 100 ∧
    (((comparePixels noPixelDiffers pngOneByOne pngTwoByOne).diffImage = none ∧
      (comparePixels noPixelDiffers pngOneByOne pngTwoByOne).changed = false ∧
      (comparePixels noPixelDiffers pngOneByOne pngTwoByOne).diffPixels = 0 ∧
      (comparePixels noPixelDiffers pngOneByOne pngTwoByOne).diffPercent = 0) ∨
     (∃ g1 g2 d, decodeTwoPngs [1] = some g1 ∧ decodeTwoPngs [2] = some g2 ∧
        (comparePixels noPixelDiffers pngOneByOne pngTwoByOne).diffImage = some d ∧
        d.width = max g1.width g2.width ∧ d.height = max g1.height g2.height ∧
        (comparePixels noPixelDiffers pngOneByOne pngTwoByOne).diffPercent =
          roundTo2 (((comparePixels noPixelDiffers pngOneByOne pngTwoByOne).diffPixels : Rat) /
            ((d.width * d.height : Nat) : Rat) * 100))) :=
  compareImages_diffPercent_derived noPixelDiffers fsTwoFiles decodeTwoPngs
    "before/before-select.png" "after/after-select.png" [1] [2]
    (comparePixels noPixelDiffers pngOneByOne pngTwoByOne) rfl rfl rfl

/-- C5: for every pair of existing, decodable inputs with different bytes
and differing dimensions, `compareImages` still returns a result (it never
fails), the diff raster's dimensions equal the element-wise maxima of the
two inputs' dimensions, and each input buffer is zero-padded top-left
aligned up to those maxima. -/
theorem compareImages_pads_to_max_dimensions (differs : Pixel → Pixel → Bool)
    (fs : String → Option (List Nat)) (decode : List Nat → Option Png)
    (p1 p2 : String) (b1 b2 : List Nat) (g1 g2 : Png)
    (h1 : fs p1 = some b1) (h2 : fs p2 = some b2) (hne : b1 ≠ b2)
    (hd1 : decode b1 = some g1) (hd2 : decode b2 = some g2)
    (hdim : g1.width ≠ g2.width ∨ g1.height ≠ g2.height) :
    ∃ r d, compareImages differs fs decode p1 p2 = some r ∧
      r.diffImage = some d ∧
      d.width = max g1.width g2.width ∧ d.height = max g1.height g2.height ∧
      (∀ x y, x < max g1.width g2.width * 4 → y < max g1.height g2.height →
        (padToSize g1 (max g1.width g2.width) (max g1.height g2.height)).getD
            (y * (max g1.width g2.width * 4) + x) 0 =
          if y < g1.height ∧ x < g1.width * 4 then
            g1.data.getD (y * (g1.width * 4) + x) 0
          else 0) ∧
      (∀ x y, x < max g1.width g2.width * 4 → y < max g1.height g2.height →
        (padToSize g2 (max g1.width g2.width) (max g1.height g2.height)).getD
            (y * (max g1.width g2.width * 4) + x) 0 =
          if y < g2.height ∧ x < g2.width * 4 then
            g2.data.getD (y * (g2.width * 4) + x) 0
          else 0) := by
  refine ⟨comparePixels differs g1 g2, _, ?_, rfl, rfl, rfl, ?_, ?_⟩
  · simp [compareImages, h1, h2, hne, hd1, hd2]
  · intro x y hx hy
    exact padToSize_getD g1 _ _ x y (le_max_left _ _) (le_max_left _ _) hx hy
  · intro x y hx hy
    exact padToSize_getD g2 _ _ x y (le_max_right _ _) (le_max_right _ _) hx hy

/-- C5 (witness): the statement at a concrete pair of differing-dimension
rasters (1 by 1 versus 2 by 1). -/
theorem compareImages_pads_to_max_dimensions_witness :
    ∃ r d, compareImages allPixelsDiffer fsTwoFiles decodeTwoPngs
        "before/before-select.png" "after/after-select.png" = some r ∧
      r.diffImage = some d ∧
      d.width = max pngOneByOne.width pngTwoByOne.width ∧
      d.height = max pngOneByOne.height pngTwoByOne.height ∧
      (∀ x y, x < max pngOneByOne.width pngTwoByOne.width * 4 →
        y < max pngOneByOne.height pngTwoByOne.height →
        (padToSize pngOneByOne (max pngOneByOne.width pngTwoByOne.width)
            (max pngOneByOne.height pngTwoByOne.height)).getD
            (y * (max pngOneByOne.width pngTwoByOne.width * 4) + x) 0 =
          if y < pngOneByOne.height ∧ x < pngOneByOne.width * 4 then
            pngOneByOne.data.getD (y * (pngOneByOne.width * 4) + x) 0
          else 0) ∧
      (∀ x y, x < max pngOneByOne.width pngTwoByOne.width * 4 →
        y < max pngOneByOne.height pngTwoByOne.height →
        (padToSize pngTwoByOne (max pngOneByOne.width pngTwoByOne.width)
            (max pngOneByOne.height pngTwoByOne.height)).getD
            (y * (max pngOneByOne.width pngTwoByOne.width * 4) + x) 0 =
          if y < pngTwoByOne.height ∧ x < pngTwoByOne.width * 4 then
            pngTwoByOne.data.getD (y * (pngTwoByOne.width * 4) + x) 0
          else 0) :=
  compareImages_pads_to_max_dimensions allPixelsDiffer fsTwoFiles decodeTwoPngs
    "before/before-select.png" "after/after-select.png" [1] [2]
    pngOneByOne pngTwoByOne rfl rfl (by decide) rfl rfl (Or.inl (by decide))

/-- C3: the ids captured for a component with a registered action are not
pairwise distinct — `isOpenState` matches results by url, and the main view
and the open view of the same component share their url, so both are
assigned the `-open` id. -/
theorem captureScreenshots_duplicate_open_ids :
    (captureScreenshotsRun (some "ghp-token") ghEnvOk true pathnameSelect
        selectActionTable [selectComponent]
        "ci/visual-regression/screenshots/before" "before"
        "cloudflare" "kumo" "vr-screenshots-1-1"
        [selectMainResult, selectOpenResult]).map (List.map CapturedScreenshot.id) =
      Except.ok ["select-open", "select-open"] ∧
    ¬ (["select-open", "select-open"] : List String).Nodup := by
  constructor
  · rfl
  · decide

/-- C4 (counterexample): with `GITHUB_TOKEN` absent the capture loop still
returns successfully — the upload error is caught and the screenshot keeps a
null url — and `postPRComment` skips commenting and returns normally, so the
run finishes with exit code 0 instead of aborting with the failure code. -/
theorem missing_token_does_not_abort_counterexample :
    captureScreenshotsRun none ghEnvOk true pathnameSelect (fun _ => none)
        [selectComponent] "ci/visual-regression/screenshots/before" "before"
        "cloudflare" "kumo" "vr-screenshots-1-1" [selectMainResult] =
      Except.ok [{ id := "select", name := "Select",
                   path := "ci/visual-regression/screenshots/before/before-select.png",
                   url := none }] ∧
    postPRComment none (some "42") [] = CommentOutcome.skipped ∧
    runExitCode ((captureScreenshotsRun none ghEnvOk true pathnameSelect
        (fun _ => none) [selectComponent]
        "ci/visual-regression/screenshots/before" "before"
        "cloudflare" "kumo" "vr-screenshots-1-1" [selectMainResult]).map
      fun _ => ()) = 0 ∧
    (0 : Nat) ≠ 1 := by
  exact ⟨rfl, rfl, rfl, by decide⟩

/-- C4 (amended): a missing `GITHUB_TOKEN` makes `uploadImageToGitHub`
throw, but the run does not abort: `captureScreenshots` catches every upload
error and keeps each screenshot with a null remote url, and `postPRComment`
without a token logs the report to the console and returns normally. -/
theorem missing_token_degrades_gracefully (env : GitHubEnv)
    (owner repoName branch filename : String) (pathname : String → String)
    (componentActions : String → Option PageAction)
    (components : List DiscoveredComponent) (outputDir prefixStr : String)
    (results : List ScreenshotResult) (prNumber : Option String)
    (comments : List IssueComment) (shots : List CapturedScreenshot)
    (hshots : captureScreenshotsRun none env true pathname componentActions
      components outputDir prefixStr owner repoName branch results = Except.ok shots) :
    uploadImageToGitHub none env owner repoName branch filename =
      Except.error "GITHUB_TOKEN required for image upload" ∧
    (∀ s ∈ shots, s.url = none) ∧
    postPRComment none prNumber comments = CommentOutcome.skipped := by
  refine ⟨rfl, ?_, rfl⟩
  intro s hs
  rw [captureScreenshotsRun] at hshots
  simp only [Bool.not_true, Bool.false_eq_true, if_false, Except.ok.injEq] at hshots
  subst hshots
  obtain ⟨r0, hr0, hs0⟩ := List.mem_map.mp hs
  rw [← hs0]
  rfl

/-- C4 (witness): the amended statement at a concrete capture of one result
without a token. -/
theorem missing_token_degrades_gracefully_witness :
    uploadImageToGitHub none ghEnvOk "cloudflare" "kumo" "vr-screenshots-1-1"
        "before-select.png" =
      Except.error "GITHUB_TOKEN required for image upload" ∧
    (∀ s ∈ [({ id := "select", name := "Select",
               path := "ci/visual-regression/screenshots/before/before-select.png",
               url := none } : CapturedScreenshot)], s.url = none) ∧
    postPRComment none (some "42") [] = CommentOutcome.skipped :=
  missing_token_degrades_gracefully ghEnvOk "cloudflare" "kumo"
    "vr-screenshots-1-1" "before-select.png" pathnameSelect (fun _ => none)
    [selectComponent] "ci/visual-regression/screenshots/before" "before"
    [selectMainResult] (some "42") [] _ rfl

/-- C7: for a changed-file set that is not entirely skippable, any
broad-impact match forces the CANARY scope with the component set fixed to
the discovered components whose ids are in `CANARY_COMPONENTS`, irrespective
of what `getAffectedComponents` would have matched. -/
theorem broad_impact_forces_canary (changedFiles : List String)
    (isSkippable isBroadImpact : String → Bool) (canaryComponents : List String)
    (getAffected : List String → List DiscoveredComponent → List DiscoveredComponent)
    (allComponents : List DiscoveredComponent)
    (hnotskip : changedFiles.all isSkippable = false)
    (hbroad : changedFiles.any isBroadImpact = true) :
    selectRunComponents false (some changedFiles) isSkippable isBroadImpact
        canaryComponents getAffected allComponents =
      (Scope.CANARY, allComponents.filter fun c => canaryComponents.contains c.id) := by
  simp [selectRunComponents, classifyChangedFiles, hnotskip, hbroad]

/-- C7 (witness): a concrete change set holding one broad-impact file and
one component-specific file selects the canary subset of the catalog. -/
theorem broad_impact_forces_canary_witness :
    selectRunComponents false
        (some ["shared/tokens.css", "components/button/button.tsx"])
        skippableDocsOnly broadTokensFile ["button", "select"] (fun _ _ => [])
        [selectComponent, buttonComponent, cardComponent] =
      (Scope.CANARY, [selectComponent, buttonComponent, cardComponent].filter
        fun c => (["button", "select"] : List String).contains c.id) :=
  broad_impact_forces_canary _ skippableDocsOnly broadTokensFile _ _ _
    (by decide) (by decide)

lemma postPRComment_found (token prNumber : String)
    (comments : List IssueComment) (c : IssueComment)
    (h : findExistingComment comments = some c) :
    postPRComment (some token) (some prNumber) comments =
      CommentOutcome.patched c.id := by
  simp [postPRComment, h]

lemma postPRComment_not_found (token prNumber : String)
    (comments : List IssueComment) (h : findExistingComment comments = none) :
    postPRComment (some token) (some prNumber) comments =
      CommentOutcome.posted := by
  simp [postPRComment, h]

/-- C8: with credentials present, `postPRComment` POSTs a new comment
exactly when no listed comment's body starts with the hidden marker; and
after one upsert of a marker-tagged body, a second upsert of the same body
PATCHes an existing comment and leaves the number of comments on the thread
unchanged — it never creates a second marker comment. -/
theorem status_comment_upsert_idempotent (token prNumber : String)
    (comments : List IssueComment) (body : String) (nid1 nid2 : Nat)
    (hbody : jsStartsWith body reportMarker = true) :
    (postPRComment (some token) (some prNumber) comments = CommentOutcome.posted ↔
      findExistingComment comments = none) ∧
    (∀ s1, s1 = applyCommentAction comments
        (postPRComment (some token) (some prNumber) comments) nid1 body →
      (∃ i, postPRComment (some token) (some prNumber) s1 =
        CommentOutcome.patched i) ∧
      (applyCommentAction s1
        (postPRComment (some token) (some prNumber) s1) nid2 body).length =
        s1.length) := by
  constructor
  · constructor
    · intro hp
      cases hfind : findExistingComment comments with
      | none => rfl
      | some c =>
        rw [postPRComment_found token prNumber comments c hfind] at hp
        exact absurd hp (by simp)
    · intro hn
      exact postPRComment_not_found token prNumber comments hn
  · intro s1 hs1
    have hex : ∃ x ∈ s1, bodyHasMarker x = true := by
      cases hfind : findExistingComment comments with
      | none =>
        rw [postPRComment_not_found token prNumber comments hfind] at hs1
        subst hs1
        refine ⟨{ id := nid1, body := some body }, ?_,
          by simp [bodyHasMarker, hbody]⟩
        simp [applyCommentAction]
      | some c =>
        rw [postPRComment_found token prNumber comments c hfind] at hs1
        subst hs1
        have hcmem : c ∈ comments := List.mem_of_find?_eq_some hfind
        refine ⟨{ c with body := some body }, ?_,
          by simp [bodyHasMarker, hbody]⟩
        simp only [applyCommentAction]
        refine List.mem_map.mpr ⟨c, hcmem, ?_⟩
        simp
    have hsome : (s1.find? bodyHasMarker).isSome = true :=
      List.find?_isSome.mpr hex
    rw [Option.isSome_iff_exists] at hsome
    obtain ⟨c2, hc2⟩ := hsome
    have hfind1 : findExistingComment s1 = some c2 := hc2
    refine ⟨⟨c2.id, postPRComment_found token prNumber s1 c2 hfind1⟩, ?_⟩
    rw [postPRComment_found token prNumber s1 c2 hfind1]
    simp [applyCommentAction]

/-- C8 (witness): upserting the marker-tagged report twice on an initially
empty thread PATCHes on the second pass and keeps the comment count. -/
theorem status_comment_upsert_idempotent_witness :
    (∃ i, postPRComment (some "ghp-token") (some "42")
        (applyCommentAction [] (postPRComment (some "ghp-token") (some "42") [])
          7 reportMarker) = CommentOutcome.patched i) ∧
    (applyCommentAction
        (applyCommentAction [] (postPRComment (some "ghp-token") (some "42") [])
          7 reportMarker)
        (postPRComment (some "ghp-token") (some "42")
          (applyCommentAction [] (postPRComment (some "ghp-token") (some "42") [])
            7 reportMarker))
        8 reportMarker).length =
      (applyCommentAction [] (postPRComment (some "ghp-token") (some "42") [])
        7 reportMarker).length :=
  (status_comment_upsert_idempotent "ghp-token" "42" [] reportMarker 7 8
    (by decide)).2 _ rfl

/-- C10: every execution of the script spawns the shell subprocess
`echo hola` as its very first effect, at module load — in particular a run
whose classification is SKIP still spawns it while issuing no worker
capture call at all. -/
theorem script_always_execs_echo_hola :
    (∀ cfg : RunConfig,
      (scriptTrace cfg).head? = some (Effect.execShell "echo hola")) ∧
    (∀ (cfg : RunConfig) (files : List String), cfg.fullRegression = false →
      cfg.gitDiffFiles = some files → files.all cfg.isSkippable = true →
      (scriptTrace cfg).head? = some (Effect.execShell "echo hola") ∧
      ∀ u, Effect.workerBatch u ∉ scriptTrace cfg) := by
  constructor
  · intro cfg
    rfl
  · intro cfg files hfull hdiff hskip
    refine ⟨rfl, ?_⟩
    intro u
    simp [scriptTrace, mainTrace, hfull, hdiff, classifyChangedFiles, hskip]

/-- C10 (witness): the statement at a concrete SKIP-classified run. -/
theorem script_always_execs_echo_hola_witness :
    (scriptTrace skipRunConfig).head? = some (Effect.execShell "echo hola") ∧
    Effect.workerBatch "https://kumo-ui.com" ∉ scriptTrace skipRunConfig :=
  ⟨(script_always_execs_echo_hola.2 skipRunConfig ["docs/readme.md"] rfl rfl
      (by decide)).1,
   (script_always_execs_echo_hola.2 skipRunConfig ["docs/readme.md"] rfl rfl
      (by decide)).2 "https://kumo-ui.com"⟩

end VisualRegression
